import Mathlib

/-!
Verification of the resilient HTTP retry client of the order-api service
(`order-api/http_client.py`, class `DeliveryAPIClient`).

The client is embedded shallowly:
* the httpx exception class hierarchy becomes the inductive `HttpxExc`
  together with `isinst_*` predicates reflecting `isinstance` checks;
* `_should_retry`, `_categorize_error`, `_is_retryable_error` and
  `_calculate_backoff_delay` become pure Lean functions (float arithmetic
  is modelled over `ℚ`; the sampled `random.uniform(0.1, 0.3)` jitter
  fraction is passed as an explicit argument);
* the downstream service seen by `process_order` is a script
  `Nat → AttemptResult` giving the physical result of each attempt, and
  `process_order` replays the retry loop over the script by fuel
  recursion (fuel `max_retries + 1`, the loop bound of the source);
* `health_check` is a single-attempt function over one `HealthAttempt`.
-/

/-- Error categories, from `ErrorCategory` in http_client.py. -/
inductive ErrorCategory where
  | timeout
  | connection
  | server_error
  | client_error
  | rate_limit
  | unknown
deriving DecidableEq, Repr

/-- Model of the httpx exception values that can reach the retry logic.
Constructors are the concrete exception classes the client can observe:
the four `TimeoutException` subclasses plus a bare `TimeoutException`;
the `NetworkError` subclasses plus a bare `NetworkError`;
`RemoteProtocolError` and `LocalProtocolError` (subclasses of
`ProtocolError`); `HTTPStatusError` carrying the response status code and
its `retry-after` header (`none` when absent); the bare `RequestError`
raised at http_client.py:251 for a 2xx body that fails JSON parsing; and
`otherException` for any exception outside the httpx hierarchy. -/
inductive HttpxExc where
  | connectTimeout
  | readTimeout
  | writeTimeout
  | poolTimeout
  | timeoutException
  | connectError
  | readError
  | writeError
  | closeError
  | networkError
  | remoteProtocolError
  | localProtocolError
  | httpStatusError (status : Nat) (retryAfter : Option String)
  | requestError
  | otherException
deriving DecidableEq, Repr

namespace HttpxExc

/-- `isinstance(e, httpx.TimeoutException)`: the base class and its
subclasses `ConnectTimeout`, `ReadTimeout`, `WriteTimeout`, `PoolTimeout`. -/
def isinst_TimeoutException : HttpxExc → Bool
  | timeoutException | connectTimeout | readTimeout | writeTimeout | poolTimeout => true
  | _ => false

/-- `isinstance(e, httpx.ConnectTimeout)`. -/
def isinst_ConnectTimeout : HttpxExc → Bool
  | connectTimeout => true
  | _ => false

/-- `isinstance(e, httpx.ReadTimeout)`. -/
def isinst_ReadTimeout : HttpxExc → Bool
  | readTimeout => true
  | _ => false

/-- `isinstance(e, httpx.PoolTimeout)`. -/
def isinst_PoolTimeout : HttpxExc → Bool
  | poolTimeout => true
  | _ => false

/-- `isinstance(e, httpx.ConnectError)`. -/
def isinst_ConnectError : HttpxExc → Bool
  | connectError => true
  | _ => false

/-- `isinstance(e, httpx.NetworkError)`: the base class and its
subclasses `ConnectError`, `ReadError`, `WriteError`, `CloseError`. -/
def isinst_NetworkError : HttpxExc → Bool
  | networkError | connectError | readError | writeError | closeError => true
  | _ => false

/-- `isinstance(e, httpx.RemoteProtocolError)`. -/
def isinst_RemoteProtocolError : HttpxExc → Bool
  | remoteProtocolError => true
  | _ => false

end HttpxExc

/-- `DeliveryAPIClient._should_retry` (http_client.py:67-106): decide from
the exception type and the 0-based attempt number whether to retry.
`maxRetries` is `self.max_retries`. -/
def shouldRetry (maxRetries : Nat) (exception : HttpxExc) (attempt : Nat) : Bool :=
  if maxRetries ≤ attempt then false
  else if exception.isinst_TimeoutException || exception.isinst_ConnectTimeout
      || exception.isinst_ReadTimeout then true
  else if exception.isinst_ConnectError || exception.isinst_NetworkError
      || exception.isinst_RemoteProtocolError then true
  else if exception.isinst_PoolTimeout then true
  else
    match exception with
    | .httpStatusError status _ =>
      if 500 ≤ status then true
      else if status == 429 then true
      else false
    | _ => false

/-- `DeliveryAPIClient._categorize_error` (http_client.py:147-170). -/
def categorizeError (exception : HttpxExc) : ErrorCategory :=
  if exception.isinst_TimeoutException || exception.isinst_ConnectTimeout
      || exception.isinst_ReadTimeout then .timeout
  else if exception.isinst_ConnectError || exception.isinst_NetworkError
      || exception.isinst_RemoteProtocolError then .connection
  else
    match exception with
    | .httpStatusError status _ =>
      if status == 429 then .rate_limit
      else if 400 ≤ status ∧ status < 500 then .client_error
      else if 500 ≤ status then .server_error
      else .unknown
    | _ => .unknown

/-- `DeliveryAPIClient._is_retryable_error` (http_client.py:172-192):
the category lies in the retryable set
`{TIMEOUT, CONNECTION, SERVER_ERROR, RATE_LIMIT}`. -/
def isRetryableError (exception : HttpxExc) : Bool :=
  match categorizeError exception with
  | .timeout | .connection | .server_error | .rate_limit => true
  | .client_error | .unknown => false

/-- Parse the digits of a decimal string (nonempty, all digits). -/
def parseDigits (cs : List Char) : Option Nat :=
  if cs.isEmpty then none
  else if cs.all Char.isDigit then
    some (cs.foldl (fun n c => 10 * n + (c.toNat - 48)) 0)
  else none

/-- Strip leading and trailing whitespace. -/
def trimChars (cs : List Char) : List Char :=
  (((cs.dropWhile Char.isWhitespace).reverse).dropWhile Char.isWhitespace).reverse

/-- Syntactic part of parsing a decimal string: optional surrounding
whitespace, optional sign, digits with at most one decimal point, at least
one digit overall. Returns the sign, the integer part, the fractional
digits and their count. -/
def parseDecimal (s : String) : Option (Bool × Nat × Nat × Nat) :=
  let t := trimChars s.toList
  let (neg, u) : Bool × List Char :=
    match t with
    | c :: rest => if c = '-' then (true, rest) else if c = '+' then (false, rest) else (false, t)
    | [] => (false, [])
  if u.count '.' = 0 then
    (parseDigits u).map (fun n => (neg, n, 0, 0))
  else if u.count '.' = 1 then
    let intPart := u.takeWhile (fun c => c ≠ '.')
    let fracPart := (u.dropWhile (fun c => c ≠ '.')).tail
    if intPart.isEmpty ∧ fracPart.isEmpty then none
    else
      let ip := if intPart.isEmpty then some 0 else parseDigits intPart
      let fp := if fracPart.isEmpty then some 0 else parseDigits fracPart
      match ip, fp with
      | some i, some f => some (neg, i, f, fracPart.length)
      | _, _ => none
  else none

/-- The rational value of a parsed decimal. -/
def decimalToRat : Bool × Nat × Nat × Nat → ℚ
  | (neg, i, f, fl) =>
    let mag : ℚ := (i : ℚ) + (f : ℚ) / (10 : ℚ) ^ fl
    if neg then -mag else mag

/-- Model of Python `float(s)` on plain decimal notation (http_client.py:133):
optional surrounding whitespace, optional sign, digits with an optional
single decimal point, value as an exact rational. Strings outside this
fragment (exponents, `inf`, `nan`) are treated as unparseable. -/
def pythonFloat? (s : String) : Option ℚ :=
  (parseDecimal s).map decimalToRat

/-- Lines 119-138 of `_calculate_backoff_delay`: the delay before jitter is
added. Exponential `backoff_factor * 2 ** attempt` capped at 30 s; for a
429 `HTTPStatusError` whose `retry-after` header is present, non-empty and
parses as a float, that value capped at 60 s overrides the exponential
delay (an unparseable header falls back to the exponential value). -/
def preJitterDelay (backoffFactor : ℚ) (attempt : Nat) (exception : Option HttpxExc) : ℚ :=
  let delay := min (backoffFactor * 2 ^ attempt) 30
  match exception with
  | some (.httpStatusError 429 (some retryAfter)) =>
    if retryAfter = "" then delay
    else
      match pythonFloat? retryAfter with
      | some retryDelay => min retryDelay 60
      | none => delay
  | _ => delay

/-- `DeliveryAPIClient._calculate_backoff_delay` (http_client.py:108-145).
`jitterFrac` is the sampled value of `random.uniform(0.1, 0.3)`; the
returned delay is `delay + jitterFrac * delay`, floored at 0.1 s. -/
def calculateBackoffDelay (backoffFactor : ℚ) (attempt : Nat)
    (exception : Option HttpxExc) (jitterFrac : ℚ) : ℚ :=
  let delay := preJitterDelay backoffFactor attempt exception
  let jitter := jitterFrac * delay
  let finalDelay := delay + jitter
  max finalDelay (1 / 10)

/-- `DeliveryResponse` (order-api/models.py:346-372): the decoded body of a
successful delivery call. -/
structure DeliveryResponse where
  success : Bool
  message : String
  order_id : String
  processed_at : String
deriving DecidableEq, Repr

/-- The physical result of one attempt of `process_order`, as produced by
the downstream service: either the transport raises an exception during
`client.post`, or a response arrives with a status code, an optional
`retry-after` header, and a body (`some d` when the body parses as JSON and
validates as a `DeliveryResponse`, `none` when parsing/validation fails). -/
inductive AttemptResult where
  | transportErr (e : HttpxExc)
  | response (status : Nat) (retryAfter : Option String) (body : Option DeliveryResponse)
deriving DecidableEq, Repr

/-- `response.raise_for_status()`: raises an `HTTPStatusError` carrying the
response exactly when the status is not a 2xx success. -/
def raise_for_status (status : Nat) (retryAfter : Option String) : Option HttpxExc :=
  if 200 ≤ status ∧ status < 300 then none
  else some (.httpStatusError status retryAfter)

/-- The body of one loop iteration of `process_order`
(http_client.py:222-272): POST the request, `raise_for_status`, parse the
JSON body (a parse failure raises a bare `httpx.RequestError`, line 251),
and build the `DeliveryResponse`. -/
def runAttempt : AttemptResult → Except HttpxExc DeliveryResponse
  | .transportErr e => .error e
  | .response status retryAfter body =>
    match raise_for_status status retryAfter with
    | some e => .error e
    | none =>
      match body with
      | some d => .ok d
      | none => .error .requestError

/-- Observable result of one call to `process_order`: the terminal outcome
(returned response or raised exception), the number of physical attempts
performed, and the 0-based attempt indices after which a backoff sleep was
performed. -/
structure RunResult where
  outcome : Except HttpxExc DeliveryResponse
  attempts : Nat
  sleeps : List Nat
deriving Repr

/-- The retry loop `for attempt in range(self.max_retries + 1)` of
`process_order` (http_client.py:221-357), started at attempt index `a` with
`fuel` iterations remaining. On success the response is returned; on an
exception `e`, if `_should_retry(e, attempt)` the loop sleeps and
continues, otherwise it breaks and re-raises the last exception. The
`fuel = 0` case is the loop running out of iterations with a retry still
pending; it is unreachable, since `shouldRetry` forces `a < mr` and the
loop grants `mr + 1` iterations. -/
def processOrderAux (mr : Nat) (script : Nat → AttemptResult) : Nat → Nat → RunResult
  | _, 0 => ⟨.error .otherException, 0, []⟩
  | a, fuel + 1 =>
    match runAttempt (script a) with
    | .ok d => ⟨.ok d, 1, []⟩
    | .error e =>
      if shouldRetry mr e a then
        let r := processOrderAux mr script (a + 1) fuel
        ⟨r.outcome, r.attempts + 1, a :: r.sleeps⟩
      else ⟨.error e, 1, []⟩

/-- `DeliveryAPIClient.process_order` (http_client.py:194-438) against a
downstream whose attempt-by-attempt behaviour is `script`, with
`mr = self.max_retries`. -/
def process_order (mr : Nat) (script : Nat → AttemptResult) : RunResult :=
  processOrderAux mr script 0 (mr + 1)

/-- The physical result of the single request of `health_check`. -/
inductive HealthAttempt where
  | transportErr (e : HttpxExc)
  | response (status : Nat) (retryAfter : Option String) (body : Option String)
deriving DecidableEq, Repr

/-- Observable result of one call to `health_check`. -/
structure HealthRun where
  outcome : Except HttpxExc String
  attempts : Nat
  sleeps : List Nat
deriving Repr

/-- `DeliveryAPIClient.health_check` (http_client.py:440-538): one GET to
the health endpoint, `raise_for_status`, JSON parse (failure raises a bare
`httpx.RequestError`, line 477); every `except` clause only logs and
re-raises the exception unchanged. There is no loop, no call to
`_should_retry` and no backoff sleep. -/
def health_check (att : HealthAttempt) : HealthRun :=
  match att with
  | .transportErr e => ⟨.error e, 1, []⟩
  | .response status retryAfter body =>
    match raise_for_status status retryAfter with
    | some e => ⟨.error e, 1, []⟩
    | none =>
      match body with
      | some d => ⟨.ok d, 1, []⟩
      | none => ⟨.error .requestError, 1, []⟩

/-! ### Helper lemmas about the retry loop -/

/-- The type-dispatch retry predicate `_should_retry` agrees with
`attempt < max_retries` combined with the category-based
`_is_retryable_error`, on every exception and attempt index. -/
theorem shouldRetry_eq_budget_and_retryable (mr : Nat) (e : HttpxExc) (a : Nat) :
    shouldRetry mr e a = (decide (a < mr) && isRetryableError e) := by
  by_cases ham : mr ≤ a
  · have h1 : ¬ a < mr := by omega
    simp [shouldRetry, ham, h1]
  · have h1 : a < mr := by omega
    simp only [shouldRetry, ham, if_false, h1, decide_True, Bool.true_and]
    cases e with
    | httpStatusError s ra =>
      by_cases h5 : 500 ≤ s
      · have h429 : ¬ s = 429 := by omega
        have h4 : ¬ (400 ≤ s ∧ s < 500) := by omega
        simp [HttpxExc.isinst_TimeoutException, HttpxExc.isinst_ConnectTimeout,
          HttpxExc.isinst_ReadTimeout, HttpxExc.isinst_ConnectError,
          HttpxExc.isinst_NetworkError, HttpxExc.isinst_RemoteProtocolError,
          HttpxExc.isinst_PoolTimeout, isRetryableError, categorizeError,
          h5, h429, h4]
      · by_cases h429 : s = 429
        · subst h429
          simp [HttpxExc.isinst_TimeoutException, HttpxExc.isinst_ConnectTimeout,
            HttpxExc.isinst_ReadTimeout, HttpxExc.isinst_ConnectError,
            HttpxExc.isinst_NetworkError, HttpxExc.isinst_RemoteProtocolError,
            HttpxExc.isinst_PoolTimeout, isRetryableError, categorizeError]
        · by_cases h4 : 400 ≤ s ∧ s < 500
          · simp [HttpxExc.isinst_TimeoutException, HttpxExc.isinst_ConnectTimeout,
              HttpxExc.isinst_ReadTimeout, HttpxExc.isinst_ConnectError,
              HttpxExc.isinst_NetworkError, HttpxExc.isinst_RemoteProtocolError,
              HttpxExc.isinst_PoolTimeout, isRetryableError, categorizeError,
              h5, h429, h4]
          · simp [HttpxExc.isinst_TimeoutException, HttpxExc.isinst_ConnectTimeout,
              HttpxExc.isinst_ReadTimeout, HttpxExc.isinst_ConnectError,
              HttpxExc.isinst_NetworkError, HttpxExc.isinst_RemoteProtocolError,
              HttpxExc.isinst_PoolTimeout, isRetryableError, categorizeError,
              h5, h429, h4]
    | _ =>
      simp [HttpxExc.isinst_TimeoutException, HttpxExc.isinst_ConnectTimeout,
        HttpxExc.isinst_ReadTimeout, HttpxExc.isinst_ConnectError,
        HttpxExc.isinst_NetworkError, HttpxExc.isinst_RemoteProtocolError,
        HttpxExc.isinst_PoolTimeout, isRetryableError, categorizeError]

/-- The loop never performs more attempts than it has fuel. -/
theorem processOrderAux_attempts_le (mr : Nat) (script : Nat → AttemptResult) :
    ∀ (fuel a : Nat), (processOrderAux mr script a fuel).attempts ≤ fuel := by
  intro fuel
  induction fuel with
  | zero => intro a; simp [processOrderAux]
  | succ f ih =>
    intro a
    simp only [processOrderAux]
    cases runAttempt (script a) with
    | ok d => simp
    | error e =>
      by_cases hr : shouldRetry mr e a
      · simp only [hr, if_true]
        have := ih (a + 1)
        simp
        omega
      · simp [hr]

/-- A positive retry decision implies budget remains. -/
theorem shouldRetry_lt (mr : Nat) (e : HttpxExc) (a : Nat)
    (h : shouldRetry mr e a = true) : a < mr := by
  have heq := shouldRetry_eq_budget_and_retryable mr e a
  rw [h] at heq
  by_contra hc
  have : ¬ a < mr := hc
  simp [this] at heq

/-- The loop performs at least one attempt, and its terminal outcome is
exactly the result of the last attempt it performed. -/
theorem processOrderAux_last (mr : Nat) (script : Nat → AttemptResult) :
    ∀ (fuel a : Nat), a + fuel = mr + 1 → 1 ≤ fuel →
      1 ≤ (processOrderAux mr script a fuel).attempts ∧
      (processOrderAux mr script a fuel).outcome
        = runAttempt (script (a + (processOrderAux mr script a fuel).attempts - 1)) := by
  intro fuel
  induction fuel with
  | zero => intro a _ h1; omega
  | succ f ih =>
    intro a hsum _
    simp only [processOrderAux]
    cases hra : runAttempt (script a) with
    | ok d => simp [hra]
    | error e =>
      by_cases hr : shouldRetry mr e a
      · have halt : a < mr := shouldRetry_lt mr e a hr
        have hf : 1 ≤ f := by omega
        have hsum' : (a + 1) + f = mr + 1 := by omega
        obtain ⟨hge, hout⟩ := ih (a + 1) hsum' hf
        simp only [hr, if_true]
        refine ⟨by simp, ?_⟩
        dsimp only
        rw [hout]
        have hidx : (a + 1) + (processOrderAux mr script (a + 1) f).attempts - 1
            = a + ((processOrderAux mr script (a + 1) f).attempts + 1) - 1 := by omega
        rw [hidx]
      · simp [hr, hra]

/-- Attempt count of the loop against a script whose first `N` attempts
fail with retryable errors and whose attempt `N` succeeds. -/
theorem processOrderAux_consec (mr N : Nat) (script : Nat → AttemptResult)
    (hfail : ∀ i, i < N → ∃ e, runAttempt (script i) = .error e ∧ isRetryableError e = true)
    (hsucc : ∃ d, runAttempt (script N) = .ok d) :
    ∀ (fuel a : Nat), a + fuel = mr + 1 → a ≤ N →
      (processOrderAux mr script a fuel).attempts = min (N + 1 - a) fuel := by
  intro fuel
  induction fuel with
  | zero => intro a _ _; simp [processOrderAux]
  | succ f ih =>
    intro a hsum haN
    simp only [processOrderAux]
    rcases Nat.eq_or_lt_of_le haN with heq | hlt
    · subst heq
      obtain ⟨d, hd⟩ := hsucc
      rw [hd]
      simp
    · obtain ⟨e, he, hret⟩ := hfail a hlt
      rw [he]
      have hsr : shouldRetry mr e a = (decide (a < mr) && isRetryableError e) :=
        shouldRetry_eq_budget_and_retryable mr e a
      by_cases halt : a < mr
      · have : shouldRetry mr e a = true := by
          rw [hsr, hret]
          simp [halt]
        simp only [this, if_true]
        have hsum' : (a + 1) + f = mr + 1 := by omega
        have haN' : a + 1 ≤ N := by omega
        have := ih (a + 1) hsum' haN'
        simp only [this]
        simp
        omega
      · have hmra : a = mr := by omega
        have : shouldRetry mr e a = false := by
          rw [hsr]
          simp [halt]
        simp only [this, if_false]
        simp
        omega

/-! ### Concrete data used by witnesses -/

/-- A decoded success body. -/
def sampleOk : DeliveryResponse :=
  ⟨true, "order processed", "order-1", "2026-01-01T00:00:00Z"⟩

/-- A decoded body whose `success` field is `false`. -/
def sampleReject : DeliveryResponse :=
  ⟨false, "validation failed", "order-1", "2026-01-01T00:00:00Z"⟩

/-- A downstream that fails twice with a connect timeout, then succeeds. -/
def retryScript : Nat → AttemptResult := fun i =>
  if i < 2 then AttemptResult.transportErr HttpxExc.connectTimeout
  else AttemptResult.response 200 none (some sampleOk)

/-! ### Claims -/

/-- C1 counterexample: a 2xx response with an unparseable body is NOT
retried like a `server_error`. With `max_retries = 3`, a downstream that
always answers 200 with a bad body yields exactly 1 attempt (the raised
bare `RequestError` matches no retry branch and is categorized `unknown`),
while a downstream that always answers 500 yields 4 attempts. -/
theorem spec_c1_counterexample :
    (process_order 3 (fun _ => AttemptResult.response 200 none none)).outcome
        = Except.error HttpxExc.requestError ∧
    (process_order 3 (fun _ => AttemptResult.response 200 none none)).attempts = 1 ∧
    (process_order 3 (fun _ => AttemptResult.response 500 none none)).attempts = 4 ∧
    shouldRetry 3 HttpxExc.requestError 0 = false ∧
    shouldRetry 3 (HttpxExc.httpStatusError 500 none) 0 = true ∧
    categorizeError HttpxExc.requestError = ErrorCategory.unknown ∧
    categorizeError (HttpxExc.httpStatusError 500 none) = ErrorCategory.server_error :=
  ⟨rfl, rfl, rfl, rfl, rfl, rfl, rfl⟩

/-- C1 (amended): if an attempt of `process_order` receives a 2xx response
whose body fails to parse as JSON, the resulting bare `RequestError` is
categorized `unknown`, is NOT eligible for retry, and is escalated to the
caller immediately after exactly one attempt with no backoff sleep; it is
never returned as partial data. -/
theorem spec_c1_amended_bad_json_not_retried (mr : Nat) (script : Nat → AttemptResult)
    (s : Nat) (ra : Option String)
    (h0 : script 0 = .response s ra none) (h2 : 200 ≤ s) (h3 : s < 300) :
    process_order mr script = ⟨.error .requestError, 1, []⟩ := by
  have hra : runAttempt (script 0) = .error .requestError := by
    rw [h0]
    simp [runAttempt, raise_for_status, h2, h3]
  have hret : isRetryableError HttpxExc.requestError = false := rfl
  have hsr : shouldRetry mr .requestError 0 = false := by
    rw [shouldRetry_eq_budget_and_retryable, hret]
    simp
  show processOrderAux mr script 0 (mr + 1) = _
  simp [processOrderAux, hra, hsr]

/-- Witness for the amended C1 at `max_retries = 3` and a downstream that
always answers 200 with an unparseable body. -/
theorem spec_c1_amended_witness :
    ((fun _ => AttemptResult.response 200 none none) 0
        = AttemptResult.response 200 none none) ∧
    process_order 3 (fun _ => AttemptResult.response 200 none none)
        = ⟨Except.error HttpxExc.requestError, 1, []⟩ :=
  ⟨rfl, spec_c1_amended_bad_json_not_retried 3 _ 200 none rfl (by norm_num) (by norm_num)⟩

/-- C2: against a downstream producing `N` consecutive retryable failures
(any categories among timeout / connection / server_error / rate_limit)
followed by success, `process_order` performs exactly
`min (N + 1) (max_retries + 1)` physical attempts; and for EVERY
downstream behaviour the attempt count never exceeds `max_retries + 1`. -/
theorem spec_c2_attempt_counts :
    (∀ (mr N : Nat) (script : Nat → AttemptResult),
        (∀ i, i < N → ∃ e, runAttempt (script i) = .error e ∧ isRetryableError e = true) →
        (∃ d, runAttempt (script N) = .ok d) →
        (process_order mr script).attempts = min (N + 1) (mr + 1)) ∧
    (∀ (mr : Nat) (script : Nat → AttemptResult),
        (process_order mr script).attempts ≤ mr + 1) := by
  constructor
  · intro mr N script hfail hsucc
    have h := processOrderAux_consec mr N script hfail hsucc (mr + 1) 0 (by omega) (by omega)
    simpa [process_order] using h
  · intro mr script
    exact processOrderAux_attempts_le mr script (mr + 1) 0

/-- Witness for C2: two connect timeouts then success, `max_retries = 1`:
`min (2 + 1) (1 + 1) = 2` attempts, within the `max_retries + 1` bound. -/
theorem spec_c2_witness :
    (process_order 1 retryScript).attempts = min (2 + 1) (1 + 1) ∧
    (process_order 1 retryScript).attempts ≤ 1 + 1 :=
  ⟨spec_c2_attempt_counts.1 1 2 retryScript
      (fun i hi => ⟨HttpxExc.connectTimeout, by simp [retryScript, hi, runAttempt], rfl⟩)
      ⟨sampleOk, rfl⟩,
    spec_c2_attempt_counts.2 1 retryScript⟩

/-- C3 counterexample: at backoff factor 1, attempt index 6 and sampled
jitter 0.1 (a legal sample of `random.uniform(0.1, 0.3)`), the computed
delay is 33 s because of the 30 s cap, yet the claimed lower bound demands
`base * 2 ^ 6 = 64 ≤ delay`. -/
theorem spec_c3_counterexample :
    (1 / 10 : ℚ) ≤ 1 / 10 ∧ (1 / 10 : ℚ) ≤ 3 / 10 ∧
    calculateBackoffDelay 1 6 none (1 / 10) = 33 ∧
    ¬ ((1 : ℚ) * 2 ^ 6 ≤ 33) :=
  ⟨le_refl _, by norm_num, by norm_num [calculateBackoffDelay, preJitterDelay], by norm_num⟩

/-- C3 (amended): for every nonnegative backoff factor `b`, attempt index
`a` and sampled jitter `j ∈ [0.1, 0.3]`, the delay without a rate-limit
hint satisfies `min (b * 2 ^ a) 30 ≤ delay`,
`delay ≤ min (b * 2 ^ a) 30 * 1.3 + 0.1` (the 0.1 slack is exactly the
floor), and `delay ≥ 0.1`; the claimed uncapped lower bound `b * 2 ^ a`
only had to be replaced by its 30 s cap. -/
theorem spec_c3_amended_backoff_bounds (b j : ℚ) (a : Nat) (hb : 0 ≤ b)
    (hj1 : 1 / 10 ≤ j) (hj2 : j ≤ 3 / 10) :
    min (b * 2 ^ a) 30 ≤ calculateBackoffDelay b a none j ∧
    calculateBackoffDelay b a none j ≤ min (b * 2 ^ a) 30 * (13 / 10) + 1 / 10 ∧
    (1 / 10 : ℚ) ≤ calculateBackoffDelay b a none j := by
  have hp0 : (0 : ℚ) ≤ min (b * 2 ^ a) 30 :=
    le_min (mul_nonneg hb (by positivity)) (by norm_num)
  have hj0 : (0 : ℚ) ≤ j := by linarith
  have hcalc : calculateBackoffDelay b a none j
      = max (min (b * 2 ^ a) 30 + j * min (b * 2 ^ a) 30) (1 / 10) := rfl
  rw [hcalc]
  set p := min (b * 2 ^ a) 30 with hpdef
  refine ⟨?_, ?_, le_max_right _ _⟩
  · have hjp : (0 : ℚ) ≤ j * p := mul_nonneg hj0 hp0
    have h1 : p ≤ p + j * p := by linarith
    exact le_trans h1 (le_max_left _ _)
  · apply max_le
    · have h2 := mul_nonneg (show (0 : ℚ) ≤ 3 / 10 - j by linarith) hp0
      nlinarith
    · nlinarith

/-- Witness for the amended C3 at `b = 1`, `a = 2`, `j = 1/5`. -/
theorem spec_c3_amended_witness :
    min ((1 : ℚ) * 2 ^ 2) 30 ≤ calculateBackoffDelay 1 2 none (1 / 5) ∧
    calculateBackoffDelay 1 2 none (1 / 5) ≤ min ((1 : ℚ) * 2 ^ 2) 30 * (13 / 10) + 1 / 10 ∧
    (1 / 10 : ℚ) ≤ calculateBackoffDelay 1 2 none (1 / 5) :=
  spec_c3_amended_backoff_bounds 1 (1 / 5) 2 (by norm_num) (by norm_num) (by norm_num)

/-- C4: when the failed attempt is a 429 whose `retry-after` header parses
as a positive number of seconds `h`, the pre-jitter base of the backoff
delay is `min h 60` instead of the exponential formula; when the header is
present but unparseable, the pre-jitter base falls back to the capped
exponential `min (backoff_factor * 2 ^ attempt) 30`. -/
theorem spec_c4_retry_after_hint :
    (∀ (b : ℚ) (a : Nat) (ra : String) (h : ℚ),
        pythonFloat? ra = some h → 0 < h →
        preJitterDelay b a (some (.httpStatusError 429 (some ra))) = min h 60) ∧
    (∀ (b : ℚ) (a : Nat) (ra : String),
        pythonFloat? ra = none →
        preJitterDelay b a (some (.httpStatusError 429 (some ra))) = min (b * 2 ^ a) 30) := by
  constructor
  · intro b a ra h hp _
    have hra : ra ≠ "" := by
      intro hre
      have hnone : pythonFloat? "" = none := by decide
      rw [hre, hnone] at hp
      exact Option.noConfusion hp
    simp [preJitterDelay, hra, hp]
  · intro b a ra hp
    by_cases hra : ra = ""
    · simp [preJitterDelay, hra]
    · simp [preJitterDelay, hra, hp]

/-- Witness for C4: hint `"120"` gives base `min 120 60 = 60`; unparseable
hint `"zz"` falls back to `min (1 * 2 ^ 2) 30 = 4`. -/
theorem spec_c4_witness :
    pythonFloat? "120" = some 120 ∧ (0 : ℚ) < 120 ∧
    preJitterDelay 1 2 (some (.httpStatusError 429 (some "120"))) = min (120 : ℚ) 60 ∧
    pythonFloat? "zz" = none ∧
    preJitterDelay 1 2 (some (.httpStatusError 429 (some "zz"))) = min ((1 : ℚ) * 2 ^ 2) 30 := by
  have h120 : pythonFloat? "120" = some 120 := by
    have h : parseDecimal "120" = some (false, 120, 0, 0) := by decide
    simp [pythonFloat?, h, decimalToRat]
  have hzz : pythonFloat? "zz" = none := by decide
  exact ⟨h120, by norm_num,
    spec_c4_retry_after_hint.1 1 2 "120" 120 h120 (by norm_num),
    hzz, spec_c4_retry_after_hint.2 1 2 "zz" hzz⟩

/-- C5: a first-attempt failure whose category is `client_error` or
`unknown` is raised immediately: exactly one physical attempt, no backoff
sleep, the error itself as outcome, for every retry budget `mr`. -/
theorem spec_c5_client_error_single_attempt (mr : Nat) (script : Nat → AttemptResult)
    (e : HttpxExc) (h0 : runAttempt (script 0) = .error e)
    (hcat : categorizeError e = .client_error ∨ categorizeError e = .unknown) :
    process_order mr script = ⟨.error e, 1, []⟩ := by
  have hret : isRetryableError e = false := by
    rcases hcat with h | h <;> simp [isRetryableError, h]
  have hsr : shouldRetry mr e 0 = false := by
    rw [shouldRetry_eq_budget_and_retryable, hret]
    simp
  show processOrderAux mr script 0 (mr + 1) = _
  simp [processOrderAux, h0, hsr]

/-- Witness for C5: HTTP 400 with `max_retries = 3` gives one attempt. -/
theorem spec_c5_witness :
    runAttempt ((fun _ => AttemptResult.response 400 none none) 0)
        = Except.error (HttpxExc.httpStatusError 400 none) ∧
    (categorizeError (HttpxExc.httpStatusError 400 none) = ErrorCategory.client_error ∨
      categorizeError (HttpxExc.httpStatusError 400 none) = ErrorCategory.unknown) ∧
    process_order 3 (fun _ => AttemptResult.response 400 none none)
        = ⟨Except.error (HttpxExc.httpStatusError 400 none), 1, []⟩ :=
  ⟨rfl, Or.inl rfl,
    spec_c5_client_error_single_attempt 3 _ _ rfl (Or.inl rfl)⟩

/-- C6: `_categorize_error` is a pure function of the failure alone (it is
a function of `e` only, by construction) mapping: every timeout
(`TimeoutException` and subclasses) to `timeout`; network-level failures
(`NetworkError` and subclasses, `RemoteProtocolError`) to `connection`;
HTTP status ≥ 500 to `server_error`; status in 400-499 except 429 to
`client_error`; status 429 to `rate_limit`; and every other failure
(non-429 statuses below 400, the bare invalid-JSON `RequestError`,
`LocalProtocolError`, non-httpx exceptions) to `unknown`. -/
theorem spec_c6_categorize_table :
    (∀ e : HttpxExc, e.isinst_TimeoutException = true →
        categorizeError e = ErrorCategory.timeout) ∧
    (∀ e : HttpxExc, (e.isinst_NetworkError || e.isinst_RemoteProtocolError) = true →
        categorizeError e = ErrorCategory.connection) ∧
    (∀ (s : Nat) (ra : Option String), 500 ≤ s →
        categorizeError (.httpStatusError s ra) = ErrorCategory.server_error) ∧
    (∀ (s : Nat) (ra : Option String), 400 ≤ s → s < 500 → s ≠ 429 →
        categorizeError (.httpStatusError s ra) = ErrorCategory.client_error) ∧
    (∀ ra : Option String, categorizeError (.httpStatusError 429 ra) = ErrorCategory.rate_limit) ∧
    (∀ (s : Nat) (ra : Option String), s < 400 →
        categorizeError (.httpStatusError s ra) = ErrorCategory.unknown) ∧
    categorizeError .requestError = ErrorCategory.unknown ∧
    categorizeError .localProtocolError = ErrorCategory.unknown ∧
    categorizeError .otherException = ErrorCategory.unknown := by
  refine ⟨?_, ?_, ?_, ?_, ?_, ?_, rfl, rfl, rfl⟩
  · intro e he
    cases e <;> simp_all [HttpxExc.isinst_TimeoutException, categorizeError,
      HttpxExc.isinst_ConnectTimeout, HttpxExc.isinst_ReadTimeout]
  · intro e he
    cases e <;> simp_all [categorizeError, HttpxExc.isinst_TimeoutException,
      HttpxExc.isinst_ConnectTimeout, HttpxExc.isinst_ReadTimeout,
      HttpxExc.isinst_ConnectError, HttpxExc.isinst_NetworkError,
      HttpxExc.isinst_RemoteProtocolError]
  · intro s ra h5
    have h429 : ¬ s = 429 := by omega
    have h4 : ¬ (400 ≤ s ∧ s < 500) := by omega
    simp [categorizeError, HttpxExc.isinst_TimeoutException,
      HttpxExc.isinst_ConnectTimeout, HttpxExc.isinst_ReadTimeout,
      HttpxExc.isinst_ConnectError, HttpxExc.isinst_NetworkError,
      HttpxExc.isinst_RemoteProtocolError, h5, h429, h4]
  · intro s ra h4a h4b h429
    simp [categorizeError, HttpxExc.isinst_TimeoutException,
      HttpxExc.isinst_ConnectTimeout, HttpxExc.isinst_ReadTimeout,
      HttpxExc.isinst_ConnectError, HttpxExc.isinst_NetworkError,
      HttpxExc.isinst_RemoteProtocolError, h4a, h4b, h429]
  · intro ra
    rfl
  · intro s ra hs
    have h429 : ¬ s = 429 := by omega
    have h4 : ¬ (400 ≤ s ∧ s < 500) := by omega
    have h5 : ¬ 500 ≤ s := by omega
    simp [categorizeError, HttpxExc.isinst_TimeoutException,
      HttpxExc.isinst_ConnectTimeout, HttpxExc.isinst_ReadTimeout,
      HttpxExc.isinst_ConnectError, HttpxExc.isinst_NetworkError,
      HttpxExc.isinst_RemoteProtocolError, h5, h429, h4]

/-- Witness for C6 at one concrete failure per category. -/
theorem spec_c6_witness :
    categorizeError HttpxExc.connectTimeout = ErrorCategory.timeout ∧
    categorizeError HttpxExc.connectError = ErrorCategory.connection ∧
    categorizeError (HttpxExc.httpStatusError 503 none) = ErrorCategory.server_error ∧
    categorizeError (HttpxExc.httpStatusError 404 none) = ErrorCategory.client_error ∧
    categorizeError (HttpxExc.httpStatusError 429 none) = ErrorCategory.rate_limit ∧
    categorizeError (HttpxExc.httpStatusError 302 none) = ErrorCategory.unknown :=
  ⟨spec_c6_categorize_table.1 HttpxExc.connectTimeout rfl,
    spec_c6_categorize_table.2.1 HttpxExc.connectError rfl,
    spec_c6_categorize_table.2.2.1 503 none (by norm_num),
    spec_c6_categorize_table.2.2.2.1 404 none (by norm_num) (by norm_num) (by norm_num),
    spec_c6_categorize_table.2.2.2.2.1 none,
    spec_c6_categorize_table.2.2.2.2.2.1 302 none (by norm_num)⟩

/-- C7: `process_order` performs at least one attempt and its terminal
outcome is verbatim the result of the last attempt performed: a terminal
failure re-raises the most recent observed error unchanged (same value,
hence same category, status code and headers), and a failure is never
swallowed into a success. -/
theorem spec_c7_terminal_outcome_is_last_attempt (mr : Nat) (script : Nat → AttemptResult) :
    1 ≤ (process_order mr script).attempts ∧
    (process_order mr script).outcome
      = runAttempt (script ((process_order mr script).attempts - 1)) := by
  have h := processOrderAux_last mr script (mr + 1) 0 (by omega) (by omega)
  simpa [process_order] using h

/-- C8: a 2xx response whose body decodes successfully is returned to the
caller after exactly one attempt with no retry and no sleep, for EVERY
decoded body `d` — in particular the result for a body with
`success = false` is exactly the same as for `success = true`: the
application-level outcome is the caller's business. -/
theorem spec_c8_app_level_failure_returned (mr : Nat) (script : Nat → AttemptResult)
    (s : Nat) (ra : Option String) (d : DeliveryResponse)
    (h0 : script 0 = .response s ra (some d)) (h2 : 200 ≤ s) (h3 : s < 300) :
    process_order mr script = ⟨.ok d, 1, []⟩ := by
  have hra : runAttempt (script 0) = .ok d := by
    rw [h0]
    simp [runAttempt, raise_for_status, h2, h3]
  show processOrderAux mr script 0 (mr + 1) = _
  simp [processOrderAux, hra]

/-- Witness for C8: a 200 response decoding to `success = false` is
returned unchanged after one attempt. -/
theorem spec_c8_witness :
    ((fun _ => AttemptResult.response 200 none (some sampleReject)) 0
        = AttemptResult.response 200 none (some sampleReject)) ∧
    sampleReject.success = false ∧
    process_order 3 (fun _ => AttemptResult.response 200 none (some sampleReject))
        = ⟨Except.ok sampleReject, 1, []⟩ :=
  ⟨rfl, rfl,
    spec_c8_app_level_failure_returned 3 _ 200 none sampleReject rfl
      (by norm_num) (by norm_num)⟩

/-- C9: `health_check` performs exactly one physical attempt and never
sleeps, for every outcome: a transport exception (timeout, connection
error, anything else) is re-raised unchanged, a 2xx with parseable body is
returned, a 2xx with unparseable body raises the invalid-JSON
`RequestError`, and a non-2xx status raises its `HTTPStatusError` — always
after the single attempt, with no backoff computed. -/
theorem spec_c9_health_check_single_attempt :
    (∀ e : HttpxExc, health_check (.transportErr e) = ⟨.error e, 1, []⟩) ∧
    (∀ (s : Nat) (ra : Option String) (b : String), 200 ≤ s → s < 300 →
        health_check (.response s ra (some b)) = ⟨.ok b, 1, []⟩) ∧
    (∀ (s : Nat) (ra : Option String), 200 ≤ s → s < 300 →
        health_check (.response s ra none) = ⟨.error .requestError, 1, []⟩) ∧
    (∀ (s : Nat) (ra : Option String) (b : Option String), ¬ (200 ≤ s ∧ s < 300) →
        health_check (.response s ra b) = ⟨.error (.httpStatusError s ra), 1, []⟩) ∧
    (∀ att : HealthAttempt,
        (health_check att).attempts = 1 ∧ (health_check att).sleeps = []) := by
  refine ⟨fun e => rfl, ?_, ?_, ?_, ?_⟩
  · intro s ra b h2 h3
    simp [health_check, raise_for_status, h2, h3]
  · intro s ra h2 h3
    simp [health_check, raise_for_status, h2, h3]
  · intro s ra b h
    cases b <;> simp [health_check, raise_for_status, h]
  · intro att
    cases att with
    | transportErr e => exact ⟨rfl, rfl⟩
    | response s ra b =>
      by_cases h : 200 ≤ s ∧ s < 300
      · cases b <;> simp [health_check, raise_for_status, h]
      · cases b <;> simp [health_check, raise_for_status, h]

/-- Witness for C9 at one concrete input per outcome kind. -/
theorem spec_c9_witness :
    health_check (.transportErr HttpxExc.readTimeout)
        = ⟨Except.error HttpxExc.readTimeout, 1, []⟩ ∧
    health_check (.response 200 none (some "healthy")) = ⟨Except.ok "healthy", 1, []⟩ ∧
    health_check (.response 200 none none) = ⟨Except.error HttpxExc.requestError, 1, []⟩ ∧
    health_check (.response 503 none none)
        = ⟨Except.error (HttpxExc.httpStatusError 503 none), 1, []⟩ ∧
    (health_check (.response 503 none none)).attempts = 1 ∧
    (health_check (.response 503 none none)).sleeps = [] :=
  ⟨spec_c9_health_check_single_attempt.1 HttpxExc.readTimeout,
    spec_c9_health_check_single_attempt.2.1 200 none "healthy" (by norm_num) (by norm_num),
    spec_c9_health_check_single_attempt.2.2.1 200 none (by norm_num) (by norm_num),
    spec_c9_health_check_single_attempt.2.2.2.1 503 none none (by norm_num),
    (spec_c9_health_check_single_attempt.2.2.2.2 (.response 503 none none)).1,
    (spec_c9_health_check_single_attempt.2.2.2.2 (.response 503 none none)).2⟩

/-- C10: the type-dispatch retry predicate `_should_retry` is equivalent,
on every exception and attempt index, to the conjunction of
`attempt < max_retries` with the category-based `_is_retryable_error`
(category in timeout / connection / server_error / rate_limit). -/
theorem spec_c10_should_retry_refines_categories (mr : Nat) (e : HttpxExc) (a : Nat) :
    shouldRetry mr e a = (decide (a < mr) && isRetryableError e) :=
  shouldRetry_eq_budget_and_retryable mr e a
